import Mathlib

/-!
Verification of `regression_tests/cmd_runner.py`, a runner of external
commands.  The Python module is shallowly embedded: the OS layer
(`subprocess.Popen`, `p.communicate`, `os.killpg`, `taskkill`, signals) is
represented by explicit data — a process behaviour record says what the OS
does, and the embedded functions reproduce the module's control flow over
it.  Strings are `List Char`, byte strings are `List Nat`.
-/

/-- Characters of a Python `str`. -/
abbrev Str := List Char

/-- Bytes of a Python `bytes` object. -/
abbrev Bytes := List Nat

/-- Host operating-system family.  Embeds
`regression_tests.utils.os.on_windows()`, which the spec treats as an
opaque boolean capability flag; `cmd_runner.py` branches on it once in
`CmdRunner.start` (line 99). -/
inductive Platform where
  | linux
  | windows
deriving DecidableEq

/-- Wiring of one standard stream of the spawned process, after the
`subprocess` constants used in `CmdRunner.start` (lines 93-98):
`PIPE`, `DEVNULL`, and `STDOUT` (stderr redirected into stdout). -/
inductive StreamMode where
  | pipe
  | devnull
  | mergedIntoStdout
deriving DecidableEq

/-- The stdin/stdout/stderr keyword arguments `CmdRunner.start` builds
(lines 93-98 of `cmd_runner.py`). -/
structure StdStreams where
  stdin : StreamMode
  stdout : StreamMode
  stderr : StreamMode
deriving DecidableEq

/-- Embeds the `kwargs` dict of `CmdRunner.start` (lines 93-98):
stdin is always a pipe; stdout and stderr are both discarded when
`discard_output` is true, otherwise stdout is a pipe and stderr is merged
into it. -/
def startStreams (discard_output : Bool) : StdStreams :=
  { stdin := StreamMode.pipe
  , stdout := if discard_output then StreamMode.devnull else StreamMode.pipe
  , stderr := if discard_output then StreamMode.devnull else StreamMode.mergedIntoStdout }

/-- An OS-level termination action issued by a `kill` method. -/
inductive OSAction where
  /-- Embeds `os.killpg(pid, signal.SIGTERM)` in `_LinuxProcess.kill`
  (line 136); `preexec_fn = os.setsid` (line 131) made the child the leader
  of a fresh group, so the group id equals the child's pid and the signal
  reaches every descendant. -/
  | killpg (pgid : Nat)
  /-- Embeds `subprocess.call(['taskkill', '/F', '/T', '/PID', str(pid)], ...)`
  in `_WindowsProcess.kill` (lines 173-174): forceful tree kill by pid,
  its own output discarded. -/
  | taskkill (pid : Nat)
deriving DecidableEq

/-- The termination action `kill` issues on each platform. -/
def killAction : Platform → Nat → OSAction
  | Platform.linux, pid => OSAction.killpg pid
  | Platform.windows, pid => OSAction.taskkill pid

/-- A process handle (`_LinuxProcess` / `_WindowsProcess`, both wrapping
`subprocess.Popen`).  `killDisabled` models the line
`self.kill = lambda: None` (lines 145 and 183): after the first `kill`
the method has been replaced by a no-op, embedded here as a flag that the
next call observes. -/
structure ProcHandle where
  platform : Platform
  pid : Nat
  killDisabled : Bool
deriving DecidableEq

/-- Embeds `_LinuxProcess.kill` (lines 134-145) and `_WindowsProcess.kill`
(lines 165-183): issue the platform's subtree-termination action, then
replace the method by a no-op; a call on a handle whose method was already
replaced does nothing and issues no action. -/
def ProcHandle.kill (p : ProcHandle) : ProcHandle × List OSAction :=
  if p.killDisabled then (p, [])
  else ({ p with killDisabled := true }, [killAction p.platform p.pid])

/-- Calling `kill` `n` times in a row, collecting every OS action issued. -/
def killN : Nat → ProcHandle → ProcHandle × List OSAction
  | 0, p => (p, [])
  | Nat.succ n, p =>
    let r := p.kill
    let r2 := killN n r.1
    (r2.1, r.2 ++ r2.2)

/-- Embeds `str.endswith('.py')` on the first command argument, tested in
`_WindowsProcess.__init__` (line 161). -/
def endsWithPy (s : Str) : Bool :=
  match s.reverse with
  | 'y' :: 'p' :: '.' :: _ => true
  | _ => false

/-- Embeds `_WindowsProcess.__init__` (lines 151-163): when the argument
list is non-empty and its first element ends in `.py`, the interpreter
executable (`sys.executable`) is inserted at index 0.  The insert is
`kwargs['args'].insert(0, sys.executable)` — an in-place mutation of the
very list object the caller passed. -/
def windowsArgs (sysExecutable : Str) (args : List Str) : List Str :=
  match args with
  | a :: rest => if endsWithPy a then sysExecutable :: a :: rest else a :: rest
  | [] => []

/-- The argument vector the OS process is spawned with: unchanged on
Linux, possibly interpreter-prefixed on Windows. -/
def spawnArgv : Platform → Str → List Str → List Str
  | Platform.linux, _, cmd => cmd
  | Platform.windows, sysExecutable, cmd => windowsArgs sysExecutable cmd

/-- The caller's own `cmd` list object as observable after `start`
returns.  Because `_WindowsProcess.__init__` mutates the passed list in
place (line 162), the caller's list and the spawned argv are the same
object, hence equal. -/
def callerArgsAfterStart (plat : Platform) (sysExecutable : Str) (cmd : List Str) : List Str :=
  spawnArgv plat sysExecutable cmd

/-- Embeds `re.sub(r'\r\n?', '\n', output)` in `CmdRunner.run_cmd.decode`
(line 58): leftmost non-overlapping replacement of `\r\n` and of a bare
`\r` by `\n`. -/
def normNewlines : Str → Str
  | [] => []
  | '\r' :: '\n' :: rest => '\n' :: normNewlines rest
  | '\r' :: rest => '\n' :: normNewlines rest
  | c :: rest => c :: normNewlines rest

/-- Helper for `strip_shell_colors`: when the flag is true the scanner is
inside an escape sequence and drops characters up to and including the
terminating `m`. -/
def stripColorsAux : Bool → Str → Str
  | _, [] => []
  | true, c :: rest =>
    if c = 'm' then stripColorsAux false rest else stripColorsAux true rest
  | false, c :: rest =>
    if c = '\x1b' then stripColorsAux true rest else c :: stripColorsAux false rest

/-- Modelled from the spec: `regression_tests.io.strip_shell_colors`, the
filter `CmdRunner.run_cmd.decode` applies on line 60, is not under `src/`;
the spec treats it as an opaque text filter that removes terminal color
escape sequences and is idempotent on already-plain text.  Modelled as
removing every run from an escape character `ESC` up to and including the
closing `m`. -/
def strip_shell_colors (s : Str) : Str := stripColorsAux false s

/-- Embeds the nested function `decode` of `CmdRunner.run_cmd`
(lines 55-61).  `output_encoding` is `None` or a codec; a codec's
`bytes.decode(output_encoding, errors='replace')` is Python library code,
embedded as a total function `Bytes → Str` (with `errors='replace'` the
decode substitutes a placeholder character and never raises, hence
totality).  When a codec is given: decode, then normalize line endings,
then — only if `stripColors` — strip shell colors; when `None`, the raw
bytes are returned untouched. -/
def decode (output_encoding : Option (Bytes → Str)) (stripColors : Bool)
    (output : Bytes) : Bytes ⊕ Str :=
  match output_encoding with
  | some dec =>
    let text := normNewlines (dec output)
    if stripColors then Sum.inr (strip_shell_colors text) else Sum.inr text
  | none => Sum.inl output

/-- Outcome of `p.communicate(input, timeout)` (line 70): either the
process exited on its own, yielding its combined output and exit status,
or `subprocess.TimeoutExpired` was raised. -/
inductive CommOutcome where
  | completed (output : Bytes) (code : Int)
  | timeoutExpired
deriving DecidableEq

/-- What the OS and the child process do during one `run_cmd` call:
`comm` is the outcome of the first `communicate(input, timeout)` as a
function of the bytes fed and the timeout; `drained` and `codeAfterKill`
are the combined output and `p.returncode` delivered by the post-kill
`p.communicate()` (lines 76-77). -/
structure ProcBehavior where
  comm : Bytes → Option Nat → CommOutcome
  drained : Bytes
  codeAfterKill : Int

/-- Observable steps of one `run_cmd` call, in order. -/
inductive Event where
  /-- The `Popen` spawn performed by `start` (lines 93-102), with its
  stream wiring and argument vector. -/
  | spawned (streams : StdStreams) (argv : List Str)
  /-- The `p.communicate(input, timeout)` call (line 70). -/
  | communicated (input : Bytes) (timeout : Option Nat)
  /-- An OS termination action issued by `p.kill()` (line 74). -/
  | osAct (a : OSAction)
  /-- The draining `p.communicate()` call after the kill (line 76). -/
  | drained
deriving DecidableEq

/-- The triple `(output, return_code, timeouted)` that `run_cmd` returns
(lines 71 and 77), together with the trace of observable steps. -/
structure RunResult where
  output : Bytes ⊕ Str
  returncode : Int
  timeouted : Bool
  trace : List Event
deriving DecidableEq

/-- Embeds lines 63-66 of `run_cmd`: a `str` input is encoded with
`input_encoding` (a codec's `str.encode`, embedded as a function
`Str → Bytes`); a `bytes` input is fed as is. -/
def encodeInput (input_encoding : Str → Bytes) : Bytes ⊕ Str → Bytes
  | Sum.inl bs => bs
  | Sum.inr s => input_encoding s

/-- An OS error raised while spawning the process (missing executable,
permission denied, ...), propagated out of `subprocess.Popen`. -/
structure SpawnErr where
  msg : Str
deriving DecidableEq

/-- The body of `run_cmd`'s `try` block after `start` succeeded
(lines 70-77): `communicate(input, timeout)`; on completion return the
decoded output, `p.returncode` and `timeouted = False`; on
`TimeoutExpired` kill the process (with its subtree), drain the remaining
output with a second `communicate()`, and return the decoded drained
output, the post-kill `p.returncode` and `timeouted = True`. -/
def runCmdStarted (p : ProcHandle) (streams : StdStreams) (argv : List Str)
    (beh : ProcBehavior) (inputBytes : Bytes) (timeout : Option Nat)
    (output_encoding : Option (Bytes → Str)) (stripColors : Bool) : RunResult :=
  match beh.comm inputBytes timeout with
  | CommOutcome.completed out code =>
    { output := decode output_encoding stripColors out
    , returncode := code
    , timeouted := false
    , trace := [Event.spawned streams argv, Event.communicated inputBytes timeout] }
  | CommOutcome.timeoutExpired =>
    let k := p.kill
    { output := decode output_encoding stripColors beh.drained
    , returncode := beh.codeAfterKill
    , timeouted := true
    , trace := [Event.spawned streams argv, Event.communicated inputBytes timeout]
        ++ k.2.map Event.osAct ++ [Event.drained] }

/-- Embeds `CmdRunner.run_cmd` (lines 18-77; the Python name `run_cmd` is
kept up to the underscore).  The input is encoded before the `try` block;
`spawn` is the OS's answer to the `Popen` call inside `self.start(cmd)`
(line 69) — an exception there propagates, since the `except` clause
catches only `subprocess.TimeoutExpired`; on success `start` spawns with
buffered output (`discard_output = False`) and the run proceeds. -/
def runCmd (plat : Platform) (sysExecutable : Str)
    (spawn : Except SpawnErr Nat) (beh : ProcBehavior) (cmd : List Str)
    (input : Bytes ⊕ Str) (timeout : Option Nat)
    (input_encoding : Str → Bytes) (output_encoding : Option (Bytes → Str))
    (stripColors : Bool) : Except SpawnErr RunResult :=
  let inputBytes := encodeInput input_encoding input
  match spawn with
  | Except.error e => Except.error e
  | Except.ok pid =>
    Except.ok (runCmdStarted
      { platform := plat, pid := pid, killDisabled := false }
      (startStreams false) (spawnArgv plat sysExecutable cmd)
      beh inputBytes timeout output_encoding stripColors)

/-- Process-wide state mutated by `signal.signal(signal.SIGTERM, handler)`
(line 110): which process handle the currently installed SIGTERM handler
will kill, if any. -/
structure HostState where
  sigtermHandlerTarget : Option Nat
deriving DecidableEq

/-- What `CmdRunner.start` (lines 79-112) produces: the process handle,
the stream wiring and argument vector given to `Popen`, the caller's
`cmd` list as observable after the call, and the new host signal state. -/
structure StartResult where
  handle : ProcHandle
  streams : StdStreams
  argv : List Str
  callerArgs : List Str
  host : HostState

/-- Embeds `CmdRunner.start` (lines 79-112): build the stream kwargs,
spawn the platform's process wrapper (`pid` is the OS-assigned id), and
install a SIGTERM handler targeting this handle, overwriting whatever
handler `host` held before. -/
def start (plat : Platform) (sysExecutable : Str) (pid : Nat)
    (_host : HostState) (cmd : List Str) (discard_output : Bool) : StartResult :=
  let argv := spawnArgv plat sysExecutable cmd
  { handle := { platform := plat, pid := pid, killDisabled := false }
  , streams := startStreams discard_output
  , argv := argv
  , callerArgs := argv
  , host := { sigtermHandlerTarget := some pid } }

/-- Embeds the `handler` closure of `CmdRunner.start` (lines 107-109):
on SIGTERM it calls `p.kill()` and then `sys.exit(1)`.  Returns the
handle after the kill, the OS actions the kill issued, and the host's
exit status. -/
def sigtermHandlerRun (p : ProcHandle) : ProcHandle × List OSAction × Nat :=
  let r := p.kill
  (r.1, r.2, 1)

/-- The combined output the OS hands back during one started run: the
output of the first `communicate` when the process completed, the drained
post-kill output otherwise. -/
def rawOutputOf (beh : ProcBehavior) (inputBytes : Bytes) (timeout : Option Nat) : Bytes :=
  match beh.comm inputBytes timeout with
  | CommOutcome.completed out _ => out
  | CommOutcome.timeoutExpired => beh.drained

/-- After any `kill` call the handle's method has been replaced by the
no-op (lines 145 and 183), whether or not it already was. -/
theorem kill_disables (p : ProcHandle) : (p.kill.1).killDisabled = true := by
  by_cases hb : p.killDisabled <;> simp [ProcHandle.kill, hb]

/-- Once the method is the no-op, any number of further `kill` calls
leave the handle unchanged and issue no OS action. -/
theorem killN_disabled (n : Nat) (p : ProcHandle) (h : p.killDisabled = true) :
    killN n p = (p, []) := by
  induction n with
  | zero => rfl
  | succ n ih => simp [killN, ProcHandle.kill, h, ih]

/-- C2: kill() may be invoked any number of times; only the first
invocation has any effect — `n` calls issue exactly the actions of one
call and end in the same state — and a call on an already-killed handle
issues no OS action at all, so it cannot signal any process, in
particular not one that reused the original pid. -/
theorem kill_is_idempotent (p : ProcHandle) (n : Nat) (h : 1 ≤ n) :
    killN n p = killN 1 p ∧ (p.kill.1).kill = (p.kill.1, []) := by
  constructor
  · obtain ⟨m, rfl⟩ : ∃ m, n = m + 1 :=
      ⟨n - 1, (Nat.succ_pred_eq_of_pos h).symm⟩
    simp [killN, killN_disabled m p.kill.1 (kill_disables p)]
  · by_cases hb : p.killDisabled <;> simp [ProcHandle.kill, hb]

/-- Witness for C2 at a concrete handle: three kill calls on a fresh
Linux handle with pid 42 equal one, and the second call is inert. -/
theorem kill_is_idempotent_witness :
    killN 3 { platform := Platform.linux, pid := 42, killDisabled := false }
        = killN 1 { platform := Platform.linux, pid := 42, killDisabled := false }
    ∧ (ProcHandle.kill { platform := Platform.linux, pid := 42, killDisabled := false }).1.kill
        = ((ProcHandle.kill { platform := Platform.linux, pid := 42, killDisabled := false }).1, []) :=
  kill_is_idempotent { platform := Platform.linux, pid := 42, killDisabled := false } 3
    (by decide)

/-- C1: when the timeout elapses first (the first `communicate` raises
`TimeoutExpired`), `run_cmd` kills the process — issuing the platform's
subtree-termination action — then drains the remaining output, and
returns, not raises: the output is the drained output (whatever was
produced up to the kill), the return code is the post-kill OS-reported
`p.returncode` (universally quantified here, so no sentinel is ever
substituted), and the timed-out flag is true. -/
theorem runCmd_timeout_kills_drains_and_flags
    (plat : Platform) (sysExecutable : Str) (pid : Nat) (beh : ProcBehavior)
    (cmd : List Str) (input : Bytes ⊕ Str) (t : Nat)
    (input_encoding : Str → Bytes) (output_encoding : Option (Bytes → Str))
    (stripColors : Bool)
    (h : beh.comm (encodeInput input_encoding input) (some t) = CommOutcome.timeoutExpired) :
    runCmd plat sysExecutable (Except.ok pid) beh cmd input (some t)
        input_encoding output_encoding stripColors
      = Except.ok
        { output := decode output_encoding stripColors beh.drained
        , returncode := beh.codeAfterKill
        , timeouted := true
        , trace := [Event.spawned (startStreams false) (spawnArgv plat sysExecutable cmd),
                    Event.communicated (encodeInput input_encoding input) (some t),
                    Event.osAct (killAction plat pid), Event.drained] } := by
  simp [runCmd, runCmdStarted, h, ProcHandle.kill]

/-- A behaviour whose first communicate always times out, then yields
output bytes `[104, 105]` and post-kill return code `-15`. -/
def timeoutBeh : ProcBehavior :=
  { comm := fun _ _ => CommOutcome.timeoutExpired
  , drained := [104, 105]
  , codeAfterKill := -15 }

/-- Witness for C1: a concrete timed-out run returns the drained bytes,
the post-kill code `-15`, the flag `true`, and its trace shows the group
kill of pid 5 before the drain. -/
theorem runCmd_timeout_kills_drains_and_flags_witness :
    runCmd Platform.linux [] (Except.ok 5) timeoutBeh [] (Sum.inl []) (some 1)
        (fun _ => []) none true
      = Except.ok
        { output := Sum.inl [104, 105]
        , returncode := -15
        , timeouted := true
        , trace := [Event.spawned (startStreams false) [],
                    Event.communicated [] (some 1),
                    Event.osAct (OSAction.killpg 5), Event.drained] } :=
  runCmd_timeout_kills_drains_and_flags Platform.linux [] 5 timeoutBeh [] (Sum.inl [])
    1 (fun _ => []) none true rfl

/-- C3: when the process exits on its own before any timeout (the first
`communicate` completes), `run_cmd` returns the timed-out flag `false`
and the process's actual exit status as the return code. -/
theorem runCmd_normal_exit
    (plat : Platform) (sysExecutable : Str) (pid : Nat) (beh : ProcBehavior)
    (cmd : List Str) (input : Bytes ⊕ Str) (timeout : Option Nat)
    (input_encoding : Str → Bytes) (output_encoding : Option (Bytes → Str))
    (stripColors : Bool) (out : Bytes) (code : Int)
    (h : beh.comm (encodeInput input_encoding input) timeout = CommOutcome.completed out code) :
    runCmd plat sysExecutable (Except.ok pid) beh cmd input timeout
        input_encoding output_encoding stripColors
      = Except.ok
        { output := decode output_encoding stripColors out
        , returncode := code
        , timeouted := false
        , trace := [Event.spawned (startStreams false) (spawnArgv plat sysExecutable cmd),
                    Event.communicated (encodeInput input_encoding input) timeout] } := by
  simp [runCmd, runCmdStarted, h]

/-- A behaviour that always exits on its own with output `[97]` and exit
status 3. -/
def exitBeh : ProcBehavior :=
  { comm := fun _ _ => CommOutcome.completed [97] 3
  , drained := []
  , codeAfterKill := 0 }

/-- Witness for C3: a concrete completed run returns `timeouted = false`
and the process's exit status 3. -/
theorem runCmd_normal_exit_witness :
    runCmd Platform.linux [] (Except.ok 7) exitBeh [] (Sum.inl []) (some 9)
        (fun _ => []) none false
      = Except.ok
        { output := Sum.inl [97]
        , returncode := 3
        , timeouted := false
        , trace := [Event.spawned (startStreams false) [],
                    Event.communicated [] (some 9)] } :=
  runCmd_normal_exit Platform.linux [] 7 exitBeh [] (Sum.inl []) (some 9)
    (fun _ => []) none false [97] 3 rfl

/-- C7: a spawn-time error (the `Popen` call inside `start` raising)
propagates unchanged out of `run_cmd`: the `except` clause catches only
`TimeoutExpired`, so the error is neither retried nor absorbed into an
execution result. -/
theorem spawn_error_propagates
    (plat : Platform) (sysExecutable : Str) (e : SpawnErr) (beh : ProcBehavior)
    (cmd : List Str) (input : Bytes ⊕ Str) (timeout : Option Nat)
    (input_encoding : Str → Bytes) (output_encoding : Option (Bytes → Str))
    (stripColors : Bool) :
    runCmd plat sysExecutable (Except.error e) beh cmd input timeout
        input_encoding output_encoding stripColors = Except.error e := rfl

/-- The Windows interpreter path used in the concrete counterexample. -/
def pythonExe : Str := ['p', 'y', 't', 'h', 'o', 'n']

/-- A one-element command vector naming a Python script. -/
def scriptPyArg : Str := ['s', 'c', 'r', 'i', 'p', 't', '.', 'p', 'y']

/-- C4, counterexample: on Windows, starting the command `['script.py']`
leaves the caller's list changed — `_WindowsProcess.__init__` inserts
`sys.executable` into the very list object the caller passed (line 162) —
so the argument sequence is not left unchanged by the call. -/
theorem windows_py_start_mutates_caller_args :
    ¬ (callerArgsAfterStart Platform.windows pythonExe [scriptPyArg] = [scriptPyArg]) := by
  decide

/-- C4, amended: on the POSIX path the caller's argument sequence is left
unchanged; on Windows it is either unchanged or has the interpreter
executable inserted in front (an in-place mutation of the caller's list,
which afterwards equals the spawned vector); in every case the spawned
argument vector carries the original argument strings verbatim as a
suffix — each element is one literal OS argument, never concatenated into
a shell string. -/
theorem args_passed_literally_amended
    (plat : Platform) (sysExecutable : Str) (cmd : List Str) :
    callerArgsAfterStart Platform.linux sysExecutable cmd = cmd
    ∧ (callerArgsAfterStart Platform.windows sysExecutable cmd = cmd
       ∨ callerArgsAfterStart Platform.windows sysExecutable cmd = sysExecutable :: cmd)
    ∧ callerArgsAfterStart plat sysExecutable cmd = spawnArgv plat sysExecutable cmd
    ∧ cmd <:+ spawnArgv plat sysExecutable cmd := by
  refine ⟨rfl, ?_, rfl, ?_⟩
  · cases cmd with
    | nil => exact Or.inl rfl
    | cons a rest =>
      by_cases h : endsWithPy a <;>
        simp [callerArgsAfterStart, spawnArgv, windowsArgs, h]
  · cases plat with
    | linux => exact List.suffix_refl cmd
    | windows =>
      cases cmd with
      | nil => exact List.suffix_refl []
      | cons a rest =>
        by_cases h : endsWithPy a <;> simp [spawnArgv, windowsArgs, h]

/-- C5: with a codec given, the output `run_cmd` returns is exactly the
pipeline decode-then-normalize-then-optionally-strip applied to the raw
bytes the OS handed back (on either the normal or the timeout path): the
total decoder (the `errors='replace'` decode, which substitutes a
placeholder instead of raising) runs first, then every `\r\n` and bare
`\r` becomes `\n`, and shell colors are stripped if and only if the flag
is true. -/
theorem output_decode_pipeline
    (p : ProcHandle) (streams : StdStreams) (argv : List Str) (beh : ProcBehavior)
    (inputBytes : Bytes) (timeout : Option Nat) (dec : Bytes → Str)
    (stripColors : Bool) :
    (runCmdStarted p streams argv beh inputBytes timeout (some dec) stripColors).output
      = Sum.inr (if stripColors
          then strip_shell_colors (normNewlines (dec (rawOutputOf beh inputBytes timeout)))
          else normNewlines (dec (rawOutputOf beh inputBytes timeout))) := by
  cases stripColors <;> cases h : beh.comm inputBytes timeout <;>
    simp [runCmdStarted, rawOutputOf, decode, h]

/-- C6: with `output_encoding = None` the run returns the raw bytes the
OS handed back, byte for byte, untouched by decoding, newline
normalization or color stripping; with a codec and the strip flag off it
returns the decoded text altered only by the `\r\n`/`\r` → `\n`
normalization. -/
theorem raw_mode_and_normalize_only
    (p : ProcHandle) (streams : StdStreams) (argv : List Str) (beh : ProcBehavior)
    (inputBytes : Bytes) (timeout : Option Nat) (stripColors : Bool)
    (dec : Bytes → Str) :
    (runCmdStarted p streams argv beh inputBytes timeout none stripColors).output
        = Sum.inl (rawOutputOf beh inputBytes timeout)
    ∧ (runCmdStarted p streams argv beh inputBytes timeout (some dec) false).output
        = Sum.inr (normNewlines (dec (rawOutputOf beh inputBytes timeout))) := by
  cases h : beh.comm inputBytes timeout <;>
    simp [runCmdStarted, rawOutputOf, decode, h]

/-- C8: `start` connects stdin to a writable pipe always; with
`discard_output = false` stdout is a readable pipe and stderr is merged
into it, with `discard_output = true` both are discarded; and `run_cmd`
always starts the process in the buffered configuration
(`startStreams false`). -/
theorem start_stream_wiring :
    startStreams false = { stdin := StreamMode.pipe, stdout := StreamMode.pipe
                         , stderr := StreamMode.mergedIntoStdout }
    ∧ startStreams true = { stdin := StreamMode.pipe, stdout := StreamMode.devnull
                          , stderr := StreamMode.devnull }
    ∧ (∀ (plat : Platform) (sysExecutable : Str) (pid : Nat) (host : HostState)
         (cmd : List Str) (d : Bool),
         (start plat sysExecutable pid host cmd d).streams = startStreams d)
    ∧ ∀ (plat : Platform) (sysExecutable : Str) (pid : Nat) (beh : ProcBehavior)
        (cmd : List Str) (input : Bytes ⊕ Str) (timeout : Option Nat)
        (input_encoding : Str → Bytes) (output_encoding : Option (Bytes → Str))
        (stripColors : Bool),
        runCmd plat sysExecutable (Except.ok pid) beh cmd input timeout
            input_encoding output_encoding stripColors
          = Except.ok (runCmdStarted
              { platform := plat, pid := pid, killDisabled := false }
              (startStreams false) (spawnArgv plat sysExecutable cmd)
              beh (encodeInput input_encoding input) timeout output_encoding stripColors) :=
  ⟨rfl, rfl, fun _ _ _ _ _ _ => rfl, fun _ _ _ _ _ _ _ _ _ _ => rfl⟩

/-- C9: every `start` call installs the process-wide SIGTERM handler
targeting the new handle, overwriting whatever registration the host held
before (the prior state is arbitrary here), and running that handler
kills the handle — issuing the platform's subtree-termination action —
and then exits the host with status 1, which is non-zero. -/
theorem start_installs_sigterm_handler
    (plat : Platform) (sysExecutable : Str) (pid : Nat) (host : HostState)
    (cmd : List Str) (d : Bool) :
    (start plat sysExecutable pid host cmd d).host = { sigtermHandlerTarget := some pid }
    ∧ sigtermHandlerRun (start plat sysExecutable pid host cmd d).handle
        = ({ platform := plat, pid := pid, killDisabled := true }, [killAction plat pid], 1) :=
  ⟨rfl, rfl⟩

/-- C10: two noninterference properties of `run_cmd`.  With
`output_encoding = None` the strip-colors flag has no observable effect:
runs differing only in it return identical results.  With a `bytes`
input, the input-encoding argument has no effect: runs differing only in
it return identical results (the encoder is never consulted). -/
theorem strip_flag_and_input_encoding_noninterference :
    (∀ (plat : Platform) (sysExecutable : Str) (spawn : Except SpawnErr Nat)
       (beh : ProcBehavior) (cmd : List Str) (input : Bytes ⊕ Str)
       (timeout : Option Nat) (input_encoding : Str → Bytes) (s1 s2 : Bool),
       runCmd plat sysExecutable spawn beh cmd input timeout input_encoding none s1
         = runCmd plat sysExecutable spawn beh cmd input timeout input_encoding none s2)
    ∧ ∀ (plat : Platform) (sysExecutable : Str) (spawn : Except SpawnErr Nat)
        (beh : ProcBehavior) (cmd : List Str) (bs : Bytes) (timeout : Option Nat)
        (e1 e2 : Str → Bytes) (output_encoding : Option (Bytes → Str))
        (stripColors : Bool),
        runCmd plat sysExecutable spawn beh cmd (Sum.inl bs) timeout e1
            output_encoding stripColors
          = runCmd plat sysExecutable spawn beh cmd (Sum.inl bs) timeout e2
            output_encoding stripColors := by
  constructor
  · intro plat sysExecutable spawn beh cmd input timeout input_encoding s1 s2
    cases spawn with
    | error e => rfl
    | ok pid =>
      cases h : beh.comm (encodeInput input_encoding input) timeout <;>
        simp [runCmd, runCmdStarted, decode, h]
  · intro plat sysExecutable spawn beh cmd bs timeout e1 e2 output_encoding stripColors
    cases spawn <;> rfl
